import Mathlib

/-!
Verification of the resilience layer of an Azure DevOps MCP server.

The embedding translates, from the repository sources:
- src/circuit_breaker.py : the CircuitBreaker state machine,
- src/rate_limiter.py    : the per-key sliding-window RateLimiter,
- src/azure_client.py    : the retry/backoff loop of AzureDevOpsClient
                           (_request_with_retry, shared verbatim by get_text)
                           and the _get_circuit_breaker singleton constructor.

Monotonic time (time.monotonic) and all durations are modelled by rationals.
HTTP responses are modelled by their status code, the parsed numeric value of
an optional Retry-After header (float(headers.get("Retry-After", 0)) in the
source, so an absent header reads as 0), and an opaque body; the JSON/text
decoding step of a 2xx body is modelled as returning the body itself.
requests.Response.raise_for_status raises exactly for 400 <= status < 600,
which is how the terminal HttpError condition is modelled.
The random jitter random.uniform(0, 1) is modelled by an oracle function
from the attempt index to the sampled value, and time.sleep(d) by advancing
the model clock by d.
-/

/-- CircuitState mirrors the CircuitState enum of src/circuit_breaker.py. -/
inductive CircuitState where
  | CLOSED
  | OPEN
  | HALF_OPEN
  deriving DecidableEq

/-- The mutable attributes and configuration of a CircuitBreaker instance
(src/circuit_breaker.py lines 21-35). -/
structure CircuitBreaker where
  failure_threshold : ℕ
  cooldown_seconds : ℚ
  success_threshold : ℕ
  state : CircuitState
  failure_count : ℕ
  success_count : ℕ
  opened_at : ℚ
  deriving DecidableEq

/-- CircuitBreaker.__init__ (src/circuit_breaker.py lines 21-35). -/
def CircuitBreaker.init (failure_threshold : ℕ) (cooldown_seconds : ℚ)
    (success_threshold : ℕ) : CircuitBreaker :=
  { failure_threshold := failure_threshold
    cooldown_seconds := cooldown_seconds
    success_threshold := success_threshold
    state := CircuitState.CLOSED
    failure_count := 0
    success_count := 0
    opened_at := 0 }

/-- CircuitBreaker._maybe_transition_to_half_open (src/circuit_breaker.py
lines 76-81): if Open and the cooldown has elapsed, move to HalfOpen and
reset the success counter. -/
def CircuitBreaker._maybe_transition_to_half_open (cb : CircuitBreaker)
    (now : ℚ) : CircuitBreaker :=
  if cb.state = CircuitState.OPEN ∧ cb.cooldown_seconds ≤ now - cb.opened_at then
    { cb with state := CircuitState.HALF_OPEN, success_count := 0 }
  else
    cb

/-- CircuitBreaker.allow_request (src/circuit_breaker.py lines 43-51):
lazy half-open check, then admit iff the state is Closed or HalfOpen.
Returns the decision together with the possibly-updated breaker. -/
def CircuitBreaker.allow_request (cb : CircuitBreaker) (now : ℚ) :
    Bool × CircuitBreaker :=
  let cb1 := cb._maybe_transition_to_half_open now
  if cb1.state = CircuitState.CLOSED then (true, cb1)
  else if cb1.state = CircuitState.HALF_OPEN then (true, cb1)
  else (false, cb1)

/-- The CircuitBreaker.state property (src/circuit_breaker.py lines 37-41):
lazy half-open check, then return the state. -/
def CircuitBreaker.state_read (cb : CircuitBreaker) (now : ℚ) :
    CircuitState × CircuitBreaker :=
  let cb1 := cb._maybe_transition_to_half_open now
  (cb1.state, cb1)

/-- CircuitBreaker.record_success (src/circuit_breaker.py lines 53-62). -/
def CircuitBreaker.record_success (cb : CircuitBreaker) : CircuitBreaker :=
  if cb.state = CircuitState.HALF_OPEN then
    if cb.success_threshold ≤ cb.success_count + 1 then
      { cb with state := CircuitState.CLOSED, failure_count := 0,
                success_count := 0 }
    else
      { cb with success_count := cb.success_count + 1 }
  else if cb.state = CircuitState.CLOSED then
    { cb with failure_count := 0 }
  else
    cb

/-- CircuitBreaker.record_failure (src/circuit_breaker.py lines 64-74):
a failure in HalfOpen reopens at once; a failure in Closed increments the
counter and opens at the threshold; no effect while Open. -/
def CircuitBreaker.record_failure (cb : CircuitBreaker) (now : ℚ) :
    CircuitBreaker :=
  if cb.state = CircuitState.HALF_OPEN then
    { cb with state := CircuitState.OPEN, opened_at := now, success_count := 0 }
  else if cb.state = CircuitState.CLOSED then
    if cb.failure_threshold ≤ cb.failure_count + 1 then
      { cb with state := CircuitState.OPEN, failure_count := cb.failure_count + 1,
                opened_at := now }
    else
      { cb with failure_count := cb.failure_count + 1 }
  else
    cb

/-- One public call on the breaker, with the monotonic clock reading at which
it happens where the source reads the clock. -/
inductive CBOp where
  | allowRequestOp (now : ℚ)
  | stateOp (now : ℚ)
  | recordSuccessOp
  | recordFailureOp (now : ℚ)
  deriving DecidableEq

/-- State effect of one public breaker call. -/
def CircuitBreaker.apply_op (cb : CircuitBreaker) : CBOp → CircuitBreaker
  | CBOp.allowRequestOp now => (cb.allow_request now).2
  | CBOp.stateOp now => (cb.state_read now).2
  | CBOp.recordSuccessOp => cb.record_success
  | CBOp.recordFailureOp now => cb.record_failure now

/-- Run a sequence of public breaker calls. -/
def CircuitBreaker.run_ops (cb : CircuitBreaker) (ops : List CBOp) :
    CircuitBreaker :=
  ops.foldl CircuitBreaker.apply_op cb

/-- The state of a RateLimiter instance (src/rate_limiter.py lines 8-12).
The dict self._requests with its get(key, []) default reads is modelled as a
total map from keys to timestamp lists that is initially constantly []. -/
structure RateLimiter where
  _max : ℕ
  _window : ℚ
  _requests : String → List ℚ

/-- RateLimiter.__init__ (src/rate_limiter.py lines 8-12). -/
def RateLimiter.init (max_requests : ℕ) (window_seconds : ℚ) : RateLimiter :=
  { _max := max_requests, _window := window_seconds, _requests := fun _ => [] }

/-- Pointwise update of the _requests dict at one key. -/
def update_requests (m : String → List ℚ) (key : String) (v : List ℚ) :
    String → List ℚ :=
  fun k2 => if k2 = key then v else m k2

/-- RateLimiter.check (src/rate_limiter.py lines 14-26): prune timestamps at
or before now - window, deny (persisting the pruned list) when the pruned
count is at least _max, otherwise append now, persist and allow. -/
def RateLimiter.check (rl : RateLimiter) (now : ℚ) (user_key : String) :
    Bool × RateLimiter :=
  let cutoff := now - rl._window
  let timestamps := (rl._requests user_key).filter (fun u => decide (cutoff < u))
  if rl._max ≤ timestamps.length then
    (false, { rl with _requests := update_requests rl._requests user_key timestamps })
  else
    (true, { rl with _requests := update_requests rl._requests user_key (timestamps ++ [now]) })

/-- Run a sequence of checks, each given as (clock reading, key); returns the
allow/deny results in order together with the final limiter state. -/
def run_checks (rl : RateLimiter) : List (ℚ × String) → List Bool × RateLimiter
  | [] => ([], rl)
  | (t, k) :: rest =>
    let r := rl.check t k
    let rec2 := run_checks r.2 rest
    (r.1 :: rec2.1, rec2.2)

/-- The allow/deny results that the checks carrying the given key receive,
in order, within a run of the full interleaved call sequence. -/
def results_for (key : String) : RateLimiter → List (ℚ × String) → List Bool
  | _, [] => []
  | rl, (t, k) :: rest =>
    let r := rl.check t k
    if k = key then r.1 :: results_for key r.2 rest
    else results_for key r.2 rest

/-- _RETRYABLE_STATUS_CODES (src/azure_client.py line 19). -/
def _RETRYABLE_STATUS_CODES : List ℕ := [429, 502, 503, 504]

/-- One HTTP response as the retry loop observes it: the status code, the
parsed numeric value of the Retry-After header when the header is present
(float parsing in the source), and the body. -/
structure Response where
  status_code : ℕ
  retry_after_header : Option ℚ
  body : String
  deriving DecidableEq

/-- A breaker outcome recorded by the client. -/
inductive Outcome where
  | success
  | failure
  deriving DecidableEq

/-- The observable result of one logical client call: the circuit-breaker
rejection (ADOUnavailableError), the exception of raise_for_status carrying
status and body (HttpError), or the decoded response body. -/
inductive CallResult where
  | unavailable
  | http_error (status : ℕ) (body : String)
  | decoded (body : String)
  deriving DecidableEq

/-- resp.raise_for_status followed by decoding (src/azure_client.py lines
108-109 and 195-196): requests raises exactly for statuses in 400..599;
otherwise the decoded body is returned. -/
def terminal_result (resp : Response) : CallResult :=
  if 400 ≤ resp.status_code ∧ resp.status_code < 600 then
    CallResult.http_error resp.status_code resp.body
  else
    CallResult.decoded resp.body

/-- The delay computation of one retry step (src/azure_client.py lines
90-92): retry_after := float(headers.get("Retry-After", 0)); if that value
is falsy (0, also when the header is absent) use
retry_delay * 2 ^ (attempt - 1) + random.uniform(0, 1), else use it. -/
def compute_delay (resp : Response) (retry_delay : ℚ) (attempt : ℕ)
    (jitter : ℚ) : ℚ :=
  let retry_after := resp.retry_after_header.getD 0
  if retry_after = 0 then retry_delay * 2 ^ (attempt - 1) + jitter
  else retry_after

/-- Trace of the attempt loop of _request_with_retry: final breaker state,
number of physical requests issued, the sleeps performed in order, the
breaker outcomes recorded in order, and the call result. -/
structure LoopOut where
  cb : CircuitBreaker
  n_requests : ℕ
  sleeps : List ℚ
  outcomes : List Outcome
  result : CallResult
  deriving DecidableEq

/-- The attempt loop of _request_with_retry (src/azure_client.py lines
79-109), identical in get_text (lines 173-196). One response is consumed per
physical attempt; attempt numbering is 1-indexed. none marks runs outside
the modelled domain: a run needing more physical responses than were
supplied, or the fall-through after the loop (lines 111-113), which is
reachable only when retry_attempts = 0 and then dereferences the unbound
name resp. -/
def retry_loop (retry_attempts : ℕ) (retry_delay : ℚ) (jitter : ℕ → ℚ)
    (cb : CircuitBreaker) (now : ℚ) (attempt : ℕ) :
    List Response → Option LoopOut
  | [] => none
  | resp :: rest =>
    if retry_attempts < attempt then none
    else if resp.status_code ∈ _RETRYABLE_STATUS_CODES ∧ attempt < retry_attempts then
      match retry_loop retry_attempts retry_delay jitter cb
          (now + compute_delay resp retry_delay attempt (jitter attempt))
          (attempt + 1) rest with
      | none => none
      | some out =>
        some { out with
                n_requests := out.n_requests + 1
                sleeps := compute_delay resp retry_delay attempt (jitter attempt) :: out.sleeps }
    else if 500 ≤ resp.status_code then
      some { cb := cb.record_failure now, n_requests := 1, sleeps := [],
             outcomes := [Outcome.failure], result := terminal_result resp }
    else
      some { cb := cb.record_success, n_requests := 1, sleeps := [],
             outcomes := [Outcome.success], result := terminal_result resp }

/-- Trace of one logical call: the trace of the loop plus the number of
allow_request consultations performed. -/
structure CallOut where
  cb : CircuitBreaker
  allow_calls : ℕ
  n_requests : ℕ
  sleeps : List ℚ
  outcomes : List Outcome
  result : CallResult
  deriving DecidableEq

/-- AzureDevOpsClient._request_with_retry (src/azure_client.py lines 54-113;
get_text, lines 150-200, repeats the same breaker check and loop): consult
allow_request once, raise ADOUnavailableError when denied, otherwise run the
attempt loop starting at attempt 1. -/
def _request_with_retry (retry_attempts : ℕ) (retry_delay : ℚ)
    (jitter : ℕ → ℚ) (cb : CircuitBreaker) (t0 : ℚ) (resps : List Response) :
    Option CallOut :=
  let a := cb.allow_request t0
  if a.1 = false then
    some { cb := a.2, allow_calls := 1, n_requests := 0, sleeps := [],
           outcomes := [], result := CallResult.unavailable }
  else
    match retry_loop retry_attempts retry_delay jitter a.2 t0 1 resps with
    | none => none
    | some out =>
      some { cb := out.cb, allow_calls := 1, n_requests := out.n_requests,
             sleeps := out.sleeps, outcomes := out.outcomes, result := out.result }

/-- _get_circuit_breaker (src/azure_client.py lines 206-215): the singleton
is constructed with failure_threshold and cooldown_seconds from settings and
leaves success_threshold at its default value 1. -/
def _get_circuit_breaker (failure_threshold : ℕ) (cooldown_seconds : ℚ) :
    CircuitBreaker :=
  CircuitBreaker.init failure_threshold cooldown_seconds 1

/-- While Open and strictly inside the cooldown, allow_request denies and
leaves the breaker unchanged. -/
theorem allow_request_open_cold (cb : CircuitBreaker) (t : ℚ)
    (hs : cb.state = CircuitState.OPEN)
    (ht : t - cb.opened_at < cb.cooldown_seconds) :
    cb.allow_request t = (false, cb) := by
  have hm : cb._maybe_transition_to_half_open t = cb := by
    unfold CircuitBreaker._maybe_transition_to_half_open
    rw [if_neg]
    rintro ⟨-, h2⟩
    linarith
  unfold CircuitBreaker.allow_request
  rw [hm]
  simp [hs]

/-- While Open with the cooldown elapsed, allow_request moves to HalfOpen,
resets the success counter and admits. -/
theorem allow_request_open_warm (cb : CircuitBreaker) (t : ℚ)
    (hs : cb.state = CircuitState.OPEN)
    (ht : cb.cooldown_seconds ≤ t - cb.opened_at) :
    cb.allow_request t =
      (true, { cb with state := CircuitState.HALF_OPEN, success_count := 0 }) := by
  have hm : cb._maybe_transition_to_half_open t =
      { cb with state := CircuitState.HALF_OPEN, success_count := 0 } := by
    unfold CircuitBreaker._maybe_transition_to_half_open
    rw [if_pos ⟨hs, ht⟩]
  unfold CircuitBreaker.allow_request
  rw [hm]
  simp

/-- While Open and strictly inside the cooldown, the state property reports
Open and leaves the breaker unchanged. -/
theorem state_read_open_cold (cb : CircuitBreaker) (t : ℚ)
    (hs : cb.state = CircuitState.OPEN)
    (ht : t - cb.opened_at < cb.cooldown_seconds) :
    cb.state_read t = (CircuitState.OPEN, cb) := by
  have hm : cb._maybe_transition_to_half_open t = cb := by
    unfold CircuitBreaker._maybe_transition_to_half_open
    rw [if_neg]
    rintro ⟨-, h2⟩
    linarith
  unfold CircuitBreaker.state_read
  rw [hm]
  simp [hs]

/-- While Open with the cooldown elapsed, the state property moves the
breaker to HalfOpen and reports HalfOpen. -/
theorem state_read_open_warm (cb : CircuitBreaker) (t : ℚ)
    (hs : cb.state = CircuitState.OPEN)
    (ht : cb.cooldown_seconds ≤ t - cb.opened_at) :
    cb.state_read t =
      (CircuitState.HALF_OPEN,
       { cb with state := CircuitState.HALF_OPEN, success_count := 0 }) := by
  have hm : cb._maybe_transition_to_half_open t =
      { cb with state := CircuitState.HALF_OPEN, success_count := 0 } := by
    unfold CircuitBreaker._maybe_transition_to_half_open
    rw [if_pos ⟨hs, ht⟩]
  unfold CircuitBreaker.state_read
  rw [hm]

/-- A failure recorded in HalfOpen reopens at once with a fresh opened_at. -/
theorem record_failure_half_open (cb : CircuitBreaker) (now : ℚ)
    (hs : cb.state = CircuitState.HALF_OPEN) :
    cb.record_failure now =
      { cb with state := CircuitState.OPEN, opened_at := now, success_count := 0 } := by
  unfold CircuitBreaker.record_failure
  rw [if_pos hs]

/-- C1: with failureThreshold 3 and cooldownSeconds 5, three consecutive
RecordFailure calls from Closed open the breaker with openedAt the third
failure's time; every AllowRequest or State call strictly less than 5
seconds after the third failure denies (returns false / reports Open) and
leaves the state unchanged; an AllowRequest or State call at or after 5
seconds moves the breaker to HalfOpen and AllowRequest returns true; a
RecordFailure right after that reopens with openedAt the failure's time, so
AllowRequest denies again strictly inside the fresh 5-second cooldown. -/
theorem C1_breaker_trip_cooldown_halfopen (t1 t2 t3 : ℚ) (s3 : CircuitBreaker)
    (hs3 : s3 = (((CircuitBreaker.init 3 5 1).record_failure t1).record_failure t2).record_failure t3) :
    s3.state = CircuitState.OPEN ∧
    s3.opened_at = t3 ∧
    (∀ t : ℚ, t - t3 < 5 →
      s3.allow_request t = (false, s3) ∧ s3.state_read t = (CircuitState.OPEN, s3)) ∧
    (∀ t : ℚ, 5 ≤ t - t3 →
      (s3.allow_request t).1 = true ∧
      (s3.allow_request t).2.state = CircuitState.HALF_OPEN ∧
      (s3.state_read t).1 = CircuitState.HALF_OPEN) ∧
    (∀ t tf u : ℚ, 5 ≤ t - t3 → u - tf < 5 →
      ((s3.allow_request t).2.record_failure tf).state = CircuitState.OPEN ∧
      ((s3.allow_request t).2.record_failure tf).opened_at = tf ∧
      ((((s3.allow_request t).2.record_failure tf).allow_request u)).1 = false) := by
  have h3 : s3 = ⟨3, 5, 1, CircuitState.OPEN, 3, 0, t3⟩ := hs3
  refine ⟨by rw [h3], by rw [h3], ?_, ?_, ?_⟩
  · intro t ht
    rw [h3]
    exact ⟨allow_request_open_cold _ t rfl (by simpa using ht),
           state_read_open_cold _ t rfl (by simpa using ht)⟩
  · intro t ht
    rw [h3, allow_request_open_warm _ t rfl (by simpa using ht),
        state_read_open_warm _ t rfl (by simpa using ht)]
    exact ⟨rfl, rfl, rfl⟩
  · intro t tf u ht hu
    rw [h3, allow_request_open_warm _ t rfl (by simpa using ht)]
    rw [record_failure_half_open _ tf rfl]
    refine ⟨rfl, rfl, ?_⟩
    rw [allow_request_open_cold _ u rfl (by simpa using hu)]

/-- C1 witness: concrete failure times 0, 1, 2; denial at t = 6.9 (inside
the cooldown), admission and HalfOpen at t = 7, reopening at tf = 7 with
denial at u = 11. -/
theorem C1_witness :
    ((6.9 : ℚ) - 2 < 5 ∧ (5 : ℚ) ≤ 7 - 2 ∧ (11 : ℚ) - 7 < 5) ∧
    ((((CircuitBreaker.init 3 5 1).record_failure 0).record_failure 1).record_failure 2).allow_request 6.9 =
      (false, (((CircuitBreaker.init 3 5 1).record_failure 0).record_failure 1).record_failure 2) ∧
    (((((CircuitBreaker.init 3 5 1).record_failure 0).record_failure 1).record_failure 2).allow_request 7).1 = true ∧
    ((((((CircuitBreaker.init 3 5 1).record_failure 0).record_failure 1).record_failure 2).allow_request 7).2.record_failure 7).opened_at = 7 ∧
    (((((((CircuitBreaker.init 3 5 1).record_failure 0).record_failure 1).record_failure 2).allow_request 7).2.record_failure 7).allow_request 11).1 = false := by
  have h := C1_breaker_trip_cooldown_halfopen 0 1 2 _ rfl
  refine ⟨⟨by norm_num, by norm_num, by norm_num⟩, ?_, ?_, ?_, ?_⟩
  · exact (h.2.2.1 6.9 (by norm_num)).1
  · exact (h.2.2.2.1 7 (by norm_num)).1
  · exact (h.2.2.2.2 7 7 11 (by norm_num) (by norm_num)).2.1
  · exact (h.2.2.2.2 7 7 11 (by norm_num) (by norm_num)).2.2

/-- C8: RecordSuccess resets failureCount (state unchanged) while Closed,
has no effect while Open, and in HalfOpen increments successCount, moving to
Closed with both counters reset once the incremented count reaches
successThreshold; the singleton breaker of azure_client is built with
successThreshold defaulted to 1, so there a single RecordSuccess in HalfOpen
closes the breaker with both counters reset. -/
theorem C8_record_success_contract :
    (∀ cb : CircuitBreaker, cb.state = CircuitState.CLOSED →
      cb.record_success = { cb with failure_count := 0 }) ∧
    (∀ cb : CircuitBreaker, cb.state = CircuitState.OPEN →
      cb.record_success = cb) ∧
    (∀ cb : CircuitBreaker, cb.state = CircuitState.HALF_OPEN →
      cb.record_success =
        if cb.success_threshold ≤ cb.success_count + 1 then
          { cb with state := CircuitState.CLOSED, failure_count := 0, success_count := 0 }
        else
          { cb with success_count := cb.success_count + 1 }) ∧
    (∀ (ft : ℕ) (cd : ℚ), (_get_circuit_breaker ft cd).success_threshold = 1) ∧
    (∀ cb : CircuitBreaker, cb.success_threshold = 1 →
      cb.state = CircuitState.HALF_OPEN →
      cb.record_success.state = CircuitState.CLOSED ∧
      cb.record_success.failure_count = 0 ∧ cb.record_success.success_count = 0) := by
  refine ⟨?_, ?_, ?_, fun ft cd => rfl, ?_⟩
  · intro cb h
    simp [CircuitBreaker.record_success, h]
  · intro cb h
    simp [CircuitBreaker.record_success, h]
  · intro cb h
    simp [CircuitBreaker.record_success, h]
  · intro cb h1 h2
    simp [CircuitBreaker.record_success, h2, h1]

/-- C8 witness: a HalfOpen breaker with successThreshold 1 (the singleton
configuration) closes on one RecordSuccess. -/
theorem C8_witness :
    ((⟨5, 60, 1, CircuitState.HALF_OPEN, 0, 0, 0⟩ : CircuitBreaker).success_threshold = 1 ∧
     (⟨5, 60, 1, CircuitState.HALF_OPEN, 0, 0, 0⟩ : CircuitBreaker).state = CircuitState.HALF_OPEN) ∧
    (⟨5, 60, 1, CircuitState.HALF_OPEN, 0, 0, 0⟩ : CircuitBreaker).record_success.state = CircuitState.CLOSED ∧
    (⟨5, 60, 1, CircuitState.HALF_OPEN, 0, 0, 0⟩ : CircuitBreaker).record_success.failure_count = 0 ∧
    (⟨5, 60, 1, CircuitState.HALF_OPEN, 0, 0, 0⟩ : CircuitBreaker).record_success.success_count = 0 :=
  ⟨⟨rfl, rfl⟩, C8_record_success_contract.2.2.2.2 _ rfl rfl⟩

/-- Any public breaker call preserves the property that the success counter
is zero outside HalfOpen. -/
theorem succ_count_zero_step (cb : CircuitBreaker) (op : CBOp)
    (h : cb.state ≠ CircuitState.HALF_OPEN → cb.success_count = 0)
    (hne : (cb.apply_op op).state ≠ CircuitState.HALF_OPEN) :
    (cb.apply_op op).success_count = 0 := by
  cases op <;>
    simp only [CircuitBreaker.apply_op, CircuitBreaker.allow_request,
      CircuitBreaker.state_read, CircuitBreaker.record_success,
      CircuitBreaker.record_failure,
      CircuitBreaker._maybe_transition_to_half_open] at hne ⊢ <;>
    split_ifs at hne ⊢ <;> simp_all

/-- Along any call sequence, the success counter is zero outside HalfOpen. -/
theorem run_ops_succ_count_zero (ops : List CBOp) :
    ∀ cb : CircuitBreaker, (cb.state ≠ CircuitState.HALF_OPEN → cb.success_count = 0) →
    ((cb.run_ops ops).state ≠ CircuitState.HALF_OPEN → (cb.run_ops ops).success_count = 0) := by
  induction ops with
  | nil => intro cb h; simpa [CircuitBreaker.run_ops] using h
  | cons op rest ih =>
    intro cb h
    simpa [CircuitBreaker.run_ops] using
      ih (cb.apply_op op) (succ_count_zero_step cb op h)

/-- A public breaker call that moves the breaker into Closed from a
non-Closed state leaves the failure counter at zero. -/
theorem enter_closed_resets_failure_count (cb : CircuitBreaker) (op : CBOp)
    (h1 : cb.state ≠ CircuitState.CLOSED)
    (h2 : (cb.apply_op op).state = CircuitState.CLOSED) :
    (cb.apply_op op).failure_count = 0 := by
  cases op <;>
    simp only [CircuitBreaker.apply_op, CircuitBreaker.allow_request,
      CircuitBreaker.state_read, CircuitBreaker.record_success,
      CircuitBreaker.record_failure,
      CircuitBreaker._maybe_transition_to_half_open] at h2 ⊢ <;>
    split_ifs at h2 ⊢ <;> simp_all

/-- C3 counterexample: the claim says failureCount is reset to 0 whenever
the breaker leaves Closed, but the third RecordFailure of a fresh breaker
with failureThreshold 3 moves Closed to Open while failure_count stays 3
(record_failure never resets the failure counter when opening). -/
theorem C3_counterexample :
    ((CircuitBreaker.init 3 5 1).run_ops
        [CBOp.recordFailureOp 0, CBOp.recordFailureOp 1]).state = CircuitState.CLOSED ∧
    ((CircuitBreaker.init 3 5 1).run_ops
        [CBOp.recordFailureOp 0, CBOp.recordFailureOp 1, CBOp.recordFailureOp 2]).state = CircuitState.OPEN ∧
    ((CircuitBreaker.init 3 5 1).run_ops
        [CBOp.recordFailureOp 0, CBOp.recordFailureOp 1, CBOp.recordFailureOp 2]).failure_count = 3 := by
  decide

/-- C3 amended: along every call sequence from a fresh breaker, successCount
is 0 whenever the state is not HalfOpen (so in particular after every
transition that leaves HalfOpen); failureCount, by contrast, is reset on
every transition that enters Closed, not on the transitions that leave it —
after Closed opens, failure_count retains the threshold value. -/
theorem C3_counters_reset_amended :
    (∀ (ft : ℕ) (cd : ℚ) (st : ℕ) (ops : List CBOp),
      ((CircuitBreaker.init ft cd st).run_ops ops).state ≠ CircuitState.HALF_OPEN →
      ((CircuitBreaker.init ft cd st).run_ops ops).success_count = 0) ∧
    (∀ (cb : CircuitBreaker) (op : CBOp), cb.state ≠ CircuitState.CLOSED →
      (cb.apply_op op).state = CircuitState.CLOSED →
      (cb.apply_op op).failure_count = 0) :=
  ⟨fun _ _ _ ops => run_ops_succ_count_zero ops _ (fun _ => rfl),
   enter_closed_resets_failure_count⟩

/-- C3 witness: a RecordSuccess on a HalfOpen breaker with successThreshold
1 enters Closed with failure_count 0, and the trace of the first amended
part at a concrete sequence ending outside HalfOpen has success_count 0. -/
theorem C3_witness :
    ((⟨3, 5, 1, CircuitState.HALF_OPEN, 2, 0, 0⟩ : CircuitBreaker).state ≠ CircuitState.CLOSED ∧
     ((⟨3, 5, 1, CircuitState.HALF_OPEN, 2, 0, 0⟩ : CircuitBreaker).apply_op CBOp.recordSuccessOp).state = CircuitState.CLOSED) ∧
    ((⟨3, 5, 1, CircuitState.HALF_OPEN, 2, 0, 0⟩ : CircuitBreaker).apply_op CBOp.recordSuccessOp).failure_count = 0 ∧
    (((CircuitBreaker.init 3 5 1).run_ops [CBOp.recordFailureOp 0]).state ≠ CircuitState.HALF_OPEN ∧
     ((CircuitBreaker.init 3 5 1).run_ops [CBOp.recordFailureOp 0]).success_count = 0) :=
  ⟨⟨by decide, by decide⟩,
   C3_counters_reset_amended.2 _ CBOp.recordSuccessOp (by decide) (by decide),
   by decide, C3_counters_reset_amended.1 3 5 1 [CBOp.recordFailureOp 0] (by decide)⟩

/-- C6: every logical call consults allow_request exactly once, and when the
breaker denies, the call ends as unavailable (ADOUnavailableError) with no
physical request issued, no sleep performed and no breaker outcome
recorded. -/
theorem C6_breaker_checked_once_before_loop :
    (∀ (ra : ℕ) (rd : ℚ) (j : ℕ → ℚ) (cb : CircuitBreaker) (t0 : ℚ)
        (resps : List Response) (out : CallOut),
      _request_with_retry ra rd j cb t0 resps = some out → out.allow_calls = 1) ∧
    (∀ (ra : ℕ) (rd : ℚ) (j : ℕ → ℚ) (cb : CircuitBreaker) (t0 : ℚ)
        (resps : List Response),
      (cb.allow_request t0).1 = false →
      _request_with_retry ra rd j cb t0 resps =
        some ⟨(cb.allow_request t0).2, 1, 0, [], [], CallResult.unavailable⟩) := by
  constructor
  · intro ra rd j cb t0 resps out h
    simp only [_request_with_retry] at h
    split at h
    · cases h
      rfl
    · split at h
      · exact absurd h (by simp)
      · cases h
        rfl
  · intro ra rd j cb t0 resps h
    simp [_request_with_retry, h]

/-- C6 witness: a breaker opened at time 0 with cooldown 5 denies at time 1,
and the call with it returns unavailable having issued nothing. -/
theorem C6_witness :
    (((⟨3, 5, 1, CircuitState.OPEN, 3, 0, 0⟩ : CircuitBreaker).allow_request 1).1 = false) ∧
    _request_with_retry 3 2 (fun _ => 1) (⟨3, 5, 1, CircuitState.OPEN, 3, 0, 0⟩ : CircuitBreaker) 1
        [⟨200, none, "ok"⟩] =
      some ⟨((⟨3, 5, 1, CircuitState.OPEN, 3, 0, 0⟩ : CircuitBreaker).allow_request 1).2,
            1, 0, [], [], CallResult.unavailable⟩ := by
  have hd : ((⟨3, 5, 1, CircuitState.OPEN, 3, 0, 0⟩ : CircuitBreaker).allow_request 1).1 = false := by
    rw [allow_request_open_cold _ 1 rfl (by norm_num)]
  exact ⟨hd, C6_breaker_checked_once_before_loop.2 3 2 (fun _ => 1) _ 1 [⟨200, none, "ok"⟩] hd⟩

/-- Any successful run of the attempt loop performs one sleep less than its
number of physical requests, stays within the attempt budget, and records
exactly one breaker outcome. -/
theorem retry_loop_counts (ra : ℕ) (rd : ℚ) (j : ℕ → ℚ) :
    ∀ (resps : List Response) (attempt : ℕ) (cb : CircuitBreaker) (now : ℚ)
      (out : LoopOut),
      retry_loop ra rd j cb now attempt resps = some out →
      out.sleeps.length + 1 = out.n_requests ∧
      out.n_requests + attempt ≤ ra + 1 ∧
      out.outcomes.length = 1 := by
  intro resps
  induction resps with
  | nil =>
    intro attempt cb now out h
    simp [retry_loop] at h
  | cons resp rest ih =>
    intro attempt cb now out h
    simp only [retry_loop] at h
    split at h
    · exact absurd h (by simp)
    · split at h
      · split at h
        · exact absurd h (by simp)
        · cases h
          rename_i hle hretry o ho
          obtain ⟨h1, h2, h3⟩ := ih (attempt + 1) cb _ o ho
          refine ⟨?_, ?_, ?_⟩ <;> simp only [List.length_cons] <;> omega
      · split at h <;> cases h <;>
          refine ⟨by simp, by simp only []; omega, by simp⟩

/-- C5: for every logical call in which each attempt yields a response, at
most maxAttempts physical requests are issued, at most maxAttempts - 1
backoff sleeps occur, and at most one breaker outcome is recorded; the
response sequence 503, 503, 200 under maxAttempts 3 yields the decoded 200
body after exactly 3 requests, 2 sleeps and the single recorded outcome
success, for every base delay and every jitter draw. -/
theorem C5_attempt_and_sleep_counts :
    (∀ (ra : ℕ) (rd : ℚ) (j : ℕ → ℚ) (cb : CircuitBreaker) (t0 : ℚ)
        (resps : List Response) (out : CallOut),
      _request_with_retry ra rd j cb t0 resps = some out →
      out.n_requests ≤ ra ∧ out.sleeps.length ≤ ra - 1 ∧ out.outcomes.length ≤ 1) ∧
    (∀ (rd : ℚ) (j : ℕ → ℚ),
      (_request_with_retry 3 rd j (CircuitBreaker.init 3 5 1) 0
          [⟨503, none, "e1"⟩, ⟨503, none, "e2"⟩, ⟨200, none, "ok"⟩]).map
        (fun o => (o.n_requests, o.sleeps.length, o.outcomes, o.result)) =
      some (3, 2, [Outcome.success], CallResult.decoded "ok")) := by
  constructor
  · intro ra rd j cb t0 resps out h
    simp only [_request_with_retry] at h
    split at h
    · cases h
      exact ⟨by simp, by simp, by simp⟩
    · split at h
      · exact absurd h (by simp)
      · cases h
        rename_i o ho
        obtain ⟨h1, h2, h3⟩ := retry_loop_counts ra rd j resps 1 _ t0 o ho
        refine ⟨?_, ?_, ?_⟩ <;> simp only [] <;> omega
  · intro rd j
    simp [_request_with_retry, retry_loop, CircuitBreaker.allow_request,
      CircuitBreaker._maybe_transition_to_half_open, CircuitBreaker.init,
      CircuitBreaker.record_success, terminal_result, _RETRYABLE_STATUS_CODES,
      compute_delay]

/-- C5 witness: a single 200 response under maxAttempts 1 issues one
request, zero sleeps and one recorded outcome. -/
theorem C5_witness :
    _request_with_retry 1 2 (fun _ => 1) (CircuitBreaker.init 3 5 1) 0 [⟨200, none, "ok"⟩] =
      some ⟨⟨3, 5, 1, CircuitState.CLOSED, 0, 0, 0⟩, 1, 1, [], [Outcome.success],
            CallResult.decoded "ok"⟩ ∧
    (1 ≤ 1 ∧ ([] : List ℚ).length ≤ 1 - 1 ∧ [Outcome.success].length ≤ 1) := by
  have he : _request_with_retry 1 2 (fun _ => 1) (CircuitBreaker.init 3 5 1) 0
      [⟨200, none, "ok"⟩] =
      some ⟨⟨3, 5, 1, CircuitState.CLOSED, 0, 0, 0⟩, 1, 1, [], [Outcome.success],
            CallResult.decoded "ok"⟩ := by
    simp [_request_with_retry, retry_loop, CircuitBreaker.allow_request,
      CircuitBreaker._maybe_transition_to_half_open, CircuitBreaker.init,
      CircuitBreaker.record_success, terminal_result, _RETRYABLE_STATUS_CODES]
  exact ⟨he,
    C5_attempt_and_sleep_counts.1 1 2 (fun _ => 1) (CircuitBreaker.init 3 5 1) 0
      [⟨200, none, "ok"⟩]
      ⟨⟨3, 5, 1, CircuitState.CLOSED, 0, 0, 0⟩, 1, 1, [], [Outcome.success],
       CallResult.decoded "ok"⟩ he⟩

/-- C2 counterexample: the claim requires every non-2xx terminal status to
fail with HttpError, but a terminal 304 response is returned as a decoded
body (raise_for_status raises only for statuses in 400..599) after
recording a success, so the non-2xx status 304 escapes the HttpError
branch. -/
theorem C2_counterexample :
    (_request_with_retry 3 2 (fun _ => 1) (CircuitBreaker.init 3 5 1) 0
        [⟨304, none, "nm"⟩]).map (fun o => (o.outcomes, o.result)) =
      some ([Outcome.success], CallResult.decoded "nm") ∧
    ¬ (200 ≤ 304 ∧ 304 < 300) := by
  constructor
  · simp [_request_with_retry, retry_loop, CircuitBreaker.allow_request,
      CircuitBreaker._maybe_transition_to_half_open, CircuitBreaker.init,
      CircuitBreaker.record_success, terminal_result, _RETRYABLE_STATUS_CODES]
  · norm_num

/-- C2 amended: on the terminal attempt (non-retryable status, or retryable
status on the final attempt) the client records failure iff the status is at
least 500 and success otherwise — in particular a final-attempt 429 records
a success — and then the call fails with HttpError carrying status and body
exactly when the status lies in 400..599, while any other terminal status
(2xx or not) returns the decoded body. Concretely, three 429 responses
under maxAttempts 3 record one success and fail with HttpError 429. -/
theorem C2_terminal_attempt_amended :
    (∀ (ra : ℕ) (rd : ℚ) (j : ℕ → ℚ) (cb : CircuitBreaker) (now : ℚ)
        (attempt : ℕ) (resp : Response) (rest : List Response),
      attempt ≤ ra →
      ¬ (resp.status_code ∈ _RETRYABLE_STATUS_CODES ∧ attempt < ra) →
      retry_loop ra rd j cb now attempt (resp :: rest) =
        some ⟨if 500 ≤ resp.status_code then cb.record_failure now else cb.record_success,
              1, [],
              [if 500 ≤ resp.status_code then Outcome.failure else Outcome.success],
              if 400 ≤ resp.status_code ∧ resp.status_code < 600 then
                CallResult.http_error resp.status_code resp.body
              else CallResult.decoded resp.body⟩) ∧
    (∀ (rd : ℚ) (j : ℕ → ℚ),
      (_request_with_retry 3 rd j (CircuitBreaker.init 3 5 1) 0
          [⟨429, none, "tb1"⟩, ⟨429, none, "tb2"⟩, ⟨429, none, "tb3"⟩]).map
        (fun o => (o.outcomes, o.result)) =
      some ([Outcome.success], CallResult.http_error 429 "tb3")) := by
  constructor
  · intro ra rd j cb now attempt resp rest h1 h2
    simp only [retry_loop]
    rw [if_neg (by omega), if_neg h2]
    split_ifs <;> simp_all [terminal_result]
  · intro rd j
    simp [_request_with_retry, retry_loop, CircuitBreaker.allow_request,
      CircuitBreaker._maybe_transition_to_half_open, CircuitBreaker.init,
      CircuitBreaker.record_success, terminal_result, _RETRYABLE_STATUS_CODES]

/-- C2 witness: a single non-retryable 404 is terminal on the first attempt
under maxAttempts 1, records a success (status below 500) and fails with
HttpError 404. -/
theorem C2_witness :
    (1 ≤ 1 ∧ ¬ ((404 : ℕ) ∈ _RETRYABLE_STATUS_CODES ∧ 1 < 1)) ∧
    retry_loop 1 2 (fun _ => 1) (CircuitBreaker.init 3 5 1) 0 1 [⟨404, none, "nf"⟩] =
      some ⟨(CircuitBreaker.init 3 5 1).record_success, 1, [], [Outcome.success],
            CallResult.http_error 404 "nf"⟩ := by
  have h := C2_terminal_attempt_amended.1 1 2 (fun _ => 1) (CircuitBreaker.init 3 5 1) 0 1
      ⟨404, none, "nf"⟩ [] (by norm_num) (by decide)
  refine ⟨⟨by norm_num, by decide⟩, ?_⟩
  simpa using h

/-- C4 counterexample: the claim routes every header value that is not
positive to the exponential-backoff branch, but the code tests the parsed
value only against 0, so a present negative Retry-After of -1 becomes the
computed delay itself (the loop would then hand the negative value to the
sleep call) instead of the exponential delay 2 * 2 ^ 0 + jitter = 5/2 with
jitter 1/2. -/
theorem C4_counterexample :
    compute_delay ⟨429, some (-1), "tb"⟩ 2 1 (1 / 2) = -1 ∧
    (retry_loop 3 2 (fun _ => 1 / 2) (CircuitBreaker.init 3 5 1) 0 1
        [⟨429, some (-1), "tb"⟩, ⟨200, none, "ok"⟩]).map (fun o => o.sleeps) =
      some [-1] ∧
    (2 * 2 ^ (1 - 1) + 1 / 2 : ℚ) = 5 / 2 ∧ (-1 : ℚ) ≠ 5 / 2 := by
  refine ⟨by norm_num [compute_delay], ?_, by norm_num, by norm_num⟩
  norm_num [retry_loop, compute_delay, CircuitBreaker.record_success,
    terminal_result, _RETRYABLE_STATUS_CODES]

/-- C4 amended: while attempts remain on a retryable status, the next delay
is the parsed Retry-After value whenever the header is present with a
nonzero value (the code tests the parsed value against 0, not for
positivity), and baseDelay * 2 ^ (attempt - 1) + jitter when the header is
absent or parses to 0; concretely a Retry-After of 10 on a 429 makes the
single sleep exactly 10 for every base delay and jitter draw. -/
theorem C4_retry_after_amended :
    (∀ (resp : Response) (rd : ℚ) (a : ℕ) (jit v : ℚ),
      resp.retry_after_header = some v → v ≠ 0 → compute_delay resp rd a jit = v) ∧
    (∀ (resp : Response) (rd : ℚ) (a : ℕ) (jit : ℚ),
      resp.retry_after_header = none ∨ resp.retry_after_header = some 0 →
      compute_delay resp rd a jit = rd * 2 ^ (a - 1) + jit) ∧
    (∀ (rd : ℚ) (j : ℕ → ℚ),
      (retry_loop 3 rd j (CircuitBreaker.init 3 5 1) 0 1
          [⟨429, some 10, "tb"⟩, ⟨200, none, "ok"⟩]).map
        (fun o => (o.sleeps, o.result)) =
      some ([10], CallResult.decoded "ok")) := by
  refine ⟨?_, ?_, ?_⟩
  · intro resp rd a jit v hv hnz
    simp [compute_delay, hv, hnz]
  · intro resp rd a jit h
    rcases h with h | h <;> simp [compute_delay, h]
  · intro rd j
    norm_num [retry_loop, compute_delay, CircuitBreaker.record_success,
      terminal_result, _RETRYABLE_STATUS_CODES]

/-- C4 witness: a present Retry-After value 10 is nonzero and becomes the
delay. -/
theorem C4_witness :
    ((⟨429, some 10, "tb"⟩ : Response).retry_after_header = some 10 ∧ (10 : ℚ) ≠ 0) ∧
    compute_delay ⟨429, some 10, "tb"⟩ 2 1 (1 / 2) = 10 :=
  ⟨⟨rfl, by norm_num⟩,
   C4_retry_after_amended.1 ⟨429, some 10, "tb"⟩ 2 1 (1 / 2) 10 rfl (by norm_num)⟩

/-- C7: with maxRequests 2 and windowSeconds 60 on one key, checks at times
0 and 1 are allowed, a third check at time 2 is denied, and a check at time
61 is allowed again because the window has slid past the old timestamps. -/
theorem C7_sliding_window_trace :
    (run_checks (RateLimiter.init 2 60)
        [((0 : ℚ), "u"), (1, "u"), (2, "u"), (61, "u")]).1 =
      [true, true, false, true] := by
  norm_num [run_checks, RateLimiter.check, RateLimiter.init, update_requests]

/-- Invariant of the limiter state at clock reading t: every key's stored
history has at most _max entries, is nondecreasing, and only holds
timestamps at or before t. -/
def rl_inv (t : ℚ) (rl : RateLimiter) : Prop :=
  ∀ k : String, (rl._requests k).length ≤ rl._max ∧
    (rl._requests k).Pairwise (· ≤ ·) ∧
    ∀ x ∈ rl._requests k, x ≤ t

/-- A check leaves _max and _window unchanged. -/
theorem check_max_window (rl : RateLimiter) (t2 : ℚ) (k : String) :
    ((rl.check t2 k).2)._max = rl._max ∧ ((rl.check t2 k).2)._window = rl._window := by
  simp only [RateLimiter.check]
  split_ifs <;> exact ⟨rfl, rfl⟩

/-- A check leaves every other key's stored history unchanged. -/
theorem check_requests_other (rl : RateLimiter) (t2 : ℚ) (k k2 : String)
    (hk : k2 ≠ k) : ((rl.check t2 k).2)._requests k2 = rl._requests k2 := by
  simp only [RateLimiter.check]
  split_ifs <;> simp [update_requests, hk]

/-- The stored history of the checked key after a check: the pruned list on
denial, the pruned list with the current time appended on admission. -/
theorem check_requests_self (rl : RateLimiter) (t2 : ℚ) (k : String) :
    ((rl.check t2 k).2)._requests k =
      if rl._max ≤ ((rl._requests k).filter (fun u => decide (t2 - rl._window < u))).length
      then (rl._requests k).filter (fun u => decide (t2 - rl._window < u))
      else (rl._requests k).filter (fun u => decide (t2 - rl._window < u)) ++ [t2] := by
  simp only [RateLimiter.check]
  split_ifs with hm <;> simp [update_requests]

/-- One check at a time t2 at or after t preserves the limiter invariant. -/
theorem check_preserves_inv (rl : RateLimiter) (t t2 : ℚ) (k : String)
    (h : rl_inv t rl) (htt : t ≤ t2) : rl_inv t2 ((rl.check t2 k).2) := by
  intro k2
  obtain ⟨hlen, hpw, hub⟩ := h k2
  rw [(check_max_window rl t2 k).1]
  by_cases hk : k2 = k
  · subst hk
    rw [check_requests_self]
    split_ifs with hm
    · refine ⟨le_trans (List.length_filter_le _ _) hlen, hpw.filter _, ?_⟩
      intro x hx
      exact le_trans (hub x (List.mem_of_mem_filter hx)) htt
    · have hlt : ((rl._requests k2).filter (fun u => decide (t2 - rl._window < u))).length < rl._max := by
        omega
      refine ⟨?_, ?_, ?_⟩
      · rw [List.length_append, List.length_singleton]
        omega
      · rw [List.pairwise_append]
        refine ⟨hpw.filter _, List.pairwise_singleton _ _, ?_⟩
        intro x hx y hy
        rw [List.mem_singleton] at hy
        subst hy
        exact le_trans (hub x (List.mem_of_mem_filter hx)) htt
      · intro x hx
        rcases List.mem_append.1 hx with hx | hx
        · exact le_trans (hub x (List.mem_of_mem_filter hx)) htt
        · rw [List.mem_singleton] at hx
          subst hx
          exact le_refl _
  · rw [check_requests_other rl t2 k k2 hk]
    refine ⟨hlen, hpw, fun x hx => le_trans (hub x hx) htt⟩

/-- Running a monotone sequence of checks preserves the limiter invariant,
ending at the last clock reading. -/
theorem run_checks_inv (ops : List (ℚ × String)) :
    ∀ (t : ℚ) (rl : RateLimiter), rl_inv t rl →
      List.Chain' (· ≤ ·) (t :: ops.map Prod.fst) →
      rl_inv (ops.foldl (fun _ p => p.1) t) (run_checks rl ops).2 := by
  induction ops with
  | nil =>
    intro t rl h _
    simpa [run_checks] using h
  | cons p rest ih =>
    intro t rl h hc
    obtain ⟨t2, k⟩ := p
    rw [List.map_cons, List.chain'_cons] at hc
    simp only [run_checks, List.foldl_cons]
    exact ih t2 (rl.check t2 k).2 (check_preserves_inv rl t t2 k h hc.1) hc.2

/-- Running checks leaves _max unchanged. -/
theorem run_checks_max (ops : List (ℚ × String)) :
    ∀ rl : RateLimiter, ((run_checks rl ops).2)._max = rl._max := by
  induction ops with
  | nil => intro rl; rfl
  | cons p rest ih =>
    intro rl
    obtain ⟨t2, k⟩ := p
    simp only [run_checks]
    rw [ih ((rl.check t2 k).2), (check_max_window rl t2 k).1]

/-- C10: after any monotone-clock sequence of checks from a fresh limiter,
every key's stored timestamp list has at most maxRequests entries and is in
nondecreasing chronological order (a check appends a timestamp only when the
pruned count is strictly below maxRequests). -/
theorem C10_history_bounded_and_sorted (max_requests : ℕ) (window_seconds : ℚ)
    (ops : List (ℚ × String))
    (hmono : List.Chain' (· ≤ ·) (ops.map Prod.fst)) (k : String) :
    (((run_checks (RateLimiter.init max_requests window_seconds) ops).2)._requests k).length ≤ max_requests ∧
    (((run_checks (RateLimiter.init max_requests window_seconds) ops).2)._requests k).Pairwise (· ≤ ·) := by
  cases ops with
  | nil => simp [run_checks, RateLimiter.init]
  | cons p rest =>
    have h0 : rl_inv p.1 (RateLimiter.init max_requests window_seconds) := by
      intro k2
      simp [RateLimiter.init]
    have hc : List.Chain' (· ≤ ·) (p.1 :: (p :: rest).map Prod.fst) := by
      rw [List.map_cons, List.chain'_cons]
      exact ⟨le_refl _, by simpa using hmono⟩
    have h := run_checks_inv (p :: rest) p.1 _ h0 hc k
    have hm := run_checks_max (p :: rest) (RateLimiter.init max_requests window_seconds)
    refine ⟨?_, h.2.1⟩
    have := h.1
    rw [hm] at this
    exact this

/-- C10 witness: two checks at times 0 and 1 on one key under maxRequests 2
keep at most 2 sorted timestamps. -/
theorem C10_witness :
    List.Chain' (· ≤ ·) ([((0 : ℚ), "u"), (1, "u")].map Prod.fst) ∧
    ((((run_checks (RateLimiter.init 2 60) [((0 : ℚ), "u"), (1, "u")]).2)._requests "u").length ≤ 2 ∧
     (((run_checks (RateLimiter.init 2 60) [((0 : ℚ), "u"), (1, "u")]).2)._requests "u").Pairwise (· ≤ ·)) := by
  have hmono : List.Chain' (· ≤ ·) ([((0 : ℚ), "u"), (1, "u")].map Prod.fst) := by
    norm_num [List.chain'_cons]
  exact ⟨hmono, C10_history_bounded_and_sorted 2 60 [((0 : ℚ), "u"), (1, "u")] hmono "u"⟩

/-- Two limiters agreeing on _max, _window and one key's history make the
same decision for that key and store the same new history at it. -/
theorem check_congr (rl1 rl2 : RateLimiter) (t2 : ℚ) (k : String)
    (hm : rl1._max = rl2._max) (hw : rl1._window = rl2._window)
    (hr : rl1._requests k = rl2._requests k) :
    (rl1.check t2 k).1 = (rl2.check t2 k).1 ∧
    ((rl1.check t2 k).2)._requests k = ((rl2.check t2 k).2)._requests k := by
  constructor
  · simp only [RateLimiter.check, hm, hw, hr]
    split_ifs <;> rfl
  · rw [check_requests_self, check_requests_self, hm, hw, hr]

/-- Deleting every check of key A from an interleaved run does not change
the results seen by any other key, given that the two starting states agree
outside A. -/
theorem run_filter_aux (A : String) (ops : List (ℚ × String)) :
    ∀ (rl1 rl2 : RateLimiter), rl1._max = rl2._max → rl1._window = rl2._window →
      (∀ k2 : String, k2 ≠ A → rl1._requests k2 = rl2._requests k2) →
      ∀ B : String, B ≠ A →
        results_for B rl1 ops =
        results_for B rl2 (ops.filter (fun p => decide (p.2 ≠ A))) := by
  induction ops with
  | nil =>
    intro rl1 rl2 hm hw hr B hB
    rfl
  | cons p rest ih =>
    intro rl1 rl2 hm hw hr B hB
    obtain ⟨t, k⟩ := p
    by_cases hk : k = A
    · have hfilter : ((t, k) :: rest).filter (fun p => decide (p.2 ≠ A)) =
          rest.filter (fun p => decide (p.2 ≠ A)) := by
        simp [List.filter_cons, hk]
      rw [hfilter]
      simp only [results_for]
      have hkB : ¬ (k = B) := fun hh => hB (hh ▸ hk)
      rw [if_neg hkB]
      exact ih (rl1.check t k).2 rl2
        (by rw [(check_max_window rl1 t k).1, hm])
        (by rw [(check_max_window rl1 t k).2, hw])
        (fun k2 hk2 => by
          rw [check_requests_other rl1 t k k2 (fun hh => hk2 (hh.trans hk)), hr k2 hk2]) B hB
    · have hfilter : ((t, k) :: rest).filter (fun p => decide (p.2 ≠ A)) =
          (t, k) :: rest.filter (fun p => decide (p.2 ≠ A)) := by
        simp [List.filter_cons, hk]
      rw [hfilter]
      have hcg := check_congr rl1 rl2 t k hm hw (hr k hk)
      have hagree : ∀ k2 : String, k2 ≠ A →
          ((rl1.check t k).2)._requests k2 = ((rl2.check t k).2)._requests k2 := by
        intro k2 hk2
        by_cases hkk : k2 = k
        · subst hkk
          exact hcg.2
        · rw [check_requests_other rl1 t k k2 hkk,
              check_requests_other rl2 t k k2 hkk]
          exact hr k2 hk2
      have hm2 : ((rl1.check t k).2)._max = ((rl2.check t k).2)._max := by
        rw [(check_max_window rl1 t k).1, (check_max_window rl2 t k).1, hm]
      have hw2 : ((rl1.check t k).2)._window = ((rl2.check t k).2)._window := by
        rw [(check_max_window rl1 t k).2, (check_max_window rl2 t k).2, hw]
      simp only [results_for]
      by_cases hkB : k = B
      · rw [if_pos hkB, if_pos hkB, hcg.1, ih _ _ hm2 hw2 hagree B hB]
      · rw [if_neg hkB, if_neg hkB, ih _ _ hm2 hw2 hagree B hB]

/-- C9: rate-limiter keys are independent — for distinct keys A and B and
any interleaved sequence of checks from a fresh limiter, the allow/deny
results seen by key B are identical to those in the run with all of key A's
checks removed. -/
theorem C9_key_independence (A B : String) (hAB : A ≠ B) (max_requests : ℕ)
    (window_seconds : ℚ) (ops : List (ℚ × String)) :
    results_for B (RateLimiter.init max_requests window_seconds) ops =
    results_for B (RateLimiter.init max_requests window_seconds)
      (ops.filter (fun p => decide (p.2 ≠ A))) :=
  run_filter_aux A ops _ _ rfl rfl (fun _ _ => rfl) B (Ne.symm hAB)

/-- C9 witness: with keys a and b, removing the a-checks leaves b's results
unchanged. -/
theorem C9_witness :
    ("a" : String) ≠ "b" ∧
    results_for "b" (RateLimiter.init 2 60) [((0 : ℚ), "a"), (1, "b"), (2, "a")] =
      results_for "b" (RateLimiter.init 2 60)
        ([((0 : ℚ), "a"), (1, "b"), (2, "a")].filter (fun p => decide (p.2 ≠ "a"))) :=
  ⟨by decide, C9_key_independence "a" "b" (by decide) 2 60 _⟩
